import Mathlib

/-!
Verification development for the Telegram shell bot (`bot.py`).

The Python source is shallowly embedded: Python strings become `List Char`
(`PyString`), the per-user session dictionary becomes the `Session`
structure, and each stateful handler becomes a pure function from the
session (plus the environment outcomes it observes: Telegram edit results,
signal-delivery results, freshly allocated message ids) to the new session
together with the list of outbound transport events it produced.
-/

namespace ShellBot

/-- Python strings are modelled as lists of characters. -/
abbrev PyString := List Char

/-- Membership in the Python default whitespace set used by `str.strip()`:
space, tab, newline, carriage return, vertical tab, form feed. -/
def pyWhitespaceChar (c : Char) : Bool :=
  c = ' ' || c = '\t' || c = '\n' || c = '\r' || c = Char.ofNat 11 || c = Char.ofNat 12

/-- Embedding of Python `str.strip()` with no arguments: drop the default
whitespace characters from both ends. -/
def pyStrip (s : PyString) : PyString :=
  ((s.dropWhile pyWhitespaceChar).reverse.dropWhile pyWhitespaceChar).reverse

/-- Embedding of the Python `in` substring test (`pat in s`): some
contiguous occurrence of `pat` starts at some position of `s`. -/
def containsSub (pat : PyString) : PyString → Bool
  | [] => pat.isPrefixOf []
  | c :: cs => pat.isPrefixOf (c :: cs) || containsSub pat cs

/-- Worker for `pySplit`. The `skip` counter consumes the remaining
characters of a pattern occurrence that has already been matched, so the
recursion is structural on the subject string. -/
def splitOnAux (pat : PyString) : PyString → Nat → List PyString
  | [], _ => [[]]
  | _ :: cs, skip + 1 => splitOnAux pat cs skip
  | c :: cs, 0 =>
    if pat.isPrefixOf (c :: cs) ∧ pat ≠ [] then
      [] :: splitOnAux pat cs (pat.length - 1)
    else
      match splitOnAux pat cs 0 with
      | [] => [[c]]
      | h :: t => (c :: h) :: t

/-- Embedding of Python `s.split(pat)` for a non-empty separator:
non-overlapping leftmost splitting. -/
def pySplit (pat s : PyString) : List PyString :=
  splitOnAux pat s 0

/-- The text before the first occurrence of `pat`, i.e. the first component
of Python `s.partition(pat)` (and `s` itself when `pat` does not occur). -/
def partitionBefore (pat s : PyString) : PyString :=
  (pySplit pat s).headD []

/-- Worker for `pyReplace`; same `skip` device as `splitOnAux`. -/
def replaceAux (pat rep : PyString) : PyString → Nat → PyString
  | [], _ => []
  | _ :: cs, skip + 1 => replaceAux pat rep cs skip
  | c :: cs, 0 =>
    if pat.isPrefixOf (c :: cs) ∧ pat ≠ [] then
      rep ++ replaceAux pat rep cs (pat.length - 1)
    else
      c :: replaceAux pat rep cs 0

/-- Embedding of Python `s.replace(pat, rep)` for a non-empty pattern. -/
def pyReplace (pat rep s : PyString) : PyString :=
  replaceAux pat rep s 0

/-- Embedding of Python `html.escape` (with its default `quote=True`):
`&`, `<`, `>`, `"` and the apostrophe are rewritten to entities, the
ampersand first, exactly as the CPython implementation chains `replace`. -/
def htmlEscape (s : PyString) : PyString :=
  pyReplace [Char.ofNat 39] "&#x27;".data
    (pyReplace "\"".data "&quot;".data
      (pyReplace ">".data "&gt;".data
        (pyReplace "<".data "&lt;".data
          (pyReplace "&".data "&amp;".data s))))

/-- Python `s.split(newline)[0]` applied after a strip: the first line. -/
def firstLineOf (s : PyString) : PyString :=
  (pySplit ['\n'] s).headD []

/-- What a fresh (lead) byte contributes to a UTF-8 decode with the
`ignore` error handler: the characters emitted immediately and the pending
multi-byte state `(accumulated bits, continuation bytes still needed, and
the valid range for the next byte — CPython restricts the second byte of
`E0/ED/F0/F4` leads to reject overlong forms, surrogates and values past
`U+10FFFF`)`.  A byte that can start nothing (a stray continuation byte,
`C0/C1`, or `F5`–`FF`) contributes nothing: it is ignored, with no
replacement character. -/
def leadState (b : Nat) : List Char × Option (Nat × Nat × Nat × Nat) :=
  if b < 0x80 then ([Char.ofNat b], none)
  else if b < 0xC2 then ([], none)
  else if b ≤ 0xDF then ([], some (b - 0xC0, 1, 0x80, 0xBF))
  else if b = 0xE0 then ([], some (0, 2, 0xA0, 0xBF))
  else if b = 0xED then ([], some (0xD, 2, 0x80, 0x9F))
  else if b ≤ 0xEF then ([], some (b - 0xE0, 2, 0x80, 0xBF))
  else if b = 0xF0 then ([], some (0, 3, 0x90, 0xBF))
  else if b = 0xF4 then ([], some (4, 3, 0x80, 0x8F))
  else if b ≤ 0xF4 then ([], some (b - 0xF0, 3, 0x80, 0xBF))
  else ([], none)

/-- Byte-by-byte UTF-8 decoding with the `ignore` error handler, carrying
the pending multi-byte state of `leadState`.  A byte outside the expected
continuation range drops the pending partial sequence (the maximal invalid
subpart) and is reprocessed as a fresh lead; a sequence left incomplete at
the end of the chunk is dropped. -/
def decodeAux : Option (Nat × Nat × Nat × Nat) → List Nat → List Char
  | _, [] => []
  | none, b :: rest => (leadState b).1 ++ decodeAux (leadState b).2 rest
  | some (acc, need, lo, hi), b :: rest =>
    if lo ≤ b ∧ b ≤ hi then
      if need ≤ 1 then Char.ofNat (acc * 64 + (b - 0x80)) :: decodeAux none rest
      else decodeAux (some (acc * 64 + (b - 0x80), need - 1, 0x80, 0xBF)) rest
    else (leadState b).1 ++ decodeAux (leadState b).2 rest

/-- Embedding of `chunk.decode(errors='ignore')` in `read_stream`
(bot.py line 114): UTF-8 decoding where every invalid maximal subpart is
silently skipped — dropped bytes produce no output at all (in particular no
replacement character), and decoding is a total function, so it never
raises. -/
def decodeUtf8Ignore (bs : List Nat) : List Char :=
  decodeAux none bs

/-! ## Data model

One `Session` mirrors one entry of the `user_sessions` dictionary created in
`start_shell_session` (bot.py lines 85-90).  The subprocess handle and the
asyncio lock objects are represented by the observable state the claims are
about: `lock` is the truth value of `session['lock'].locked()`.  Outbound
transport calls become `Event`s; the outcome of a Telegram edit attempt and
of signal delivery are inputs supplied by the environment. -/

/-- Per-user session state (`user_sessions[user_id]` in bot.py). -/
structure Session where
  cwd : PyString
  lock : Bool
  output_buffer : List PyString
  last_message_id : Option Nat
  last_message_text : PyString
deriving DecidableEq

/-- Outbound transport calls observable at the chat boundary.
`editMessage t` is an attempt to edit the currently displayed message to
text `t` (the attempt is recorded whether or not Telegram accepts it);
`replyText t` sends a fresh message with text `t`. -/
inductive Event where
  | editMessage (text : PyString)
  | replyText (text : PyString)
deriving DecidableEq

/-- The text carried by an outbound event. -/
def eventText : Event → PyString
  | .editMessage t => t
  | .replyText t => t

/-- Environment outcome of one `bot.edit_message_text` call: success, a
`BadRequest` whose message contains "Message is not modified", or any other
`BadRequest` (e.g. the target message is gone). -/
inductive EditOutcome where
  | ok
  | notModified
  | badRequestOther
deriving DecidableEq

/-- Environment outcome of the `os.killpg(os.getpgid(...), SIGINT)` call in
`control_c_command`: delivered, `ProcessLookupError`, or some other
exception carrying its rendered text. -/
inductive KillOutcome where
  | ok
  | processLookup
  | otherError (msg : PyString)
deriving DecidableEq

/-- The `---CWD_MARKER---` sentinel (bot.py line 103). -/
def CWD_MARKER : PyString := "---CWD_MARKER---".data

/-- The `---EOC_MARKER---` sentinel (bot.py line 104). -/
def EOC_MARKER : PyString := "---EOC_MARKER---".data

/-- Wrap text in the `code` HTML tag, as every published message does. -/
def codeTag (t : PyString) : PyString :=
  "<code>".data ++ t ++ "</code>".data

/-- The prompt text sent by `send_and_update_prompt` (bot.py line 29). -/
def promptText (cwd : PyString) : PyString :=
  codeTag (cwd ++ " $".data)

/-- Reply sent when dispatching while a command is running (line 347). -/
def busyMessage : PyString :=
  "A command is already running. Please wait or use /controlC.".data

/-- Reply sent by `text_message_handler` when no session exists (line 342). -/
def noActiveShellMsg : PyString :=
  "No active shell. Use /start to begin.".data

/-- Reply sent by `control_c_command` when unauthorized or sessionless. -/
def noSessionMsg : PyString :=
  "No shell session is active.".data

/-- Reply sent by `control_c_command` after a delivered SIGINT (line 314). -/
def interruptSentMsg : PyString :=
  "Interrupt signal (Ctrl+C) sent.".data

/-- Reply sent by `control_c_command` on `ProcessLookupError` (line 319). -/
def processGoneMsg : PyString :=
  "Process seems to have already ended.".data

/-- Embedding of `is_authorized` (bot.py lines 23-24), with the
`AUTHORIZED_USERS` configuration passed explicitly. -/
def is_authorized (allowed : List Nat) (uid : Nat) : Bool :=
  allowed.contains uid

/-! ## Output aggregator and stream reader -/

/-- The outbound calls made by the final flush in `read_stream`
(bot.py lines 125-137) given the stored message id, the stored last
published text, the sanitized transcript and the edit outcome: an existing
message is edited when the sanitized text is non-empty and differs from the
stored text (a failing edit other than "not modified" falls back to a fresh
reply), otherwise a fresh reply is sent when there is no stored id and the
sanitized text is non-empty. -/
def finalFlushEvents (lastId : Option Nat) (lastText sanitized : PyString)
    (e : EditOutcome) : List Event :=
  match lastId with
  | some _ =>
    if sanitized ≠ [] ∧ sanitized ≠ lastText then
      match e with
      | .badRequestOther =>
        [Event.editMessage (codeTag sanitized), Event.replyText (codeTag sanitized)]
      | _ => [Event.editMessage (codeTag sanitized)]
    else []
  | none => if sanitized ≠ [] then [Event.replyText (codeTag sanitized)] else []

/-- Embedding of one loop iteration of `read_stream` (bot.py lines 106-159)
applied to one decoded chunk, for a session that still exists.  If the
chunk contains `---EOC_MARKER---`: the text before the marker is appended,
the whole buffer is joined, stripped, CWD markers are removed, the result
is HTML-escaped and published (`finalFlushEvents`), the buffer is cleared,
the publication state is reset, the command lock is released and the prompt
is republished.  Otherwise a chunk containing `---CWD_MARKER---` is split
on the marker: the first line of the stripped text after the first marker
becomes the new working directory when non-empty, and only the text outside
the first marker pair is buffered; a plain chunk is buffered whole. -/
def read_stream_step (s : Session) (output : PyString) (e : EditOutcome) :
    Session × List Event :=
  if containsSub EOC_MARKER output then
    let pre := partitionBefore EOC_MARKER output
    let buf1 := if pre ≠ [] then s.output_buffer ++ [pre] else s.output_buffer
    let full := pyStrip buf1.flatten
    let sanitized := htmlEscape (pyReplace CWD_MARKER [] full)
    ({ s with output_buffer := [], last_message_id := none,
              last_message_text := [], lock := false },
      finalFlushEvents s.last_message_id s.last_message_text sanitized e ++
        [Event.replyText (promptText s.cwd)])
  else
    let res :=
      if containsSub CWD_MARKER output then
        let parts := pySplit CWD_MARKER output
        let newCwd := firstLineOf (pyStrip (parts.getD 1 []))
        ({ s with cwd := if newCwd ≠ [] then newCwd else s.cwd },
          parts.headD [] ++ (if 2 < parts.length then parts.getD 2 [] else []))
      else (s, output)
    if res.2 ≠ [] then
      ({ res.1 with output_buffer := res.1.output_buffer ++ [res.2] }, [])
    else (res.1, [])

/-- The edit stage of one `periodic_flusher` iteration (bot.py lines
56-67): when a message id is stored, attempt the edit; success records the
new text, a "not modified" failure changes nothing, any other `BadRequest`
clears the stored id. -/
def periodicEditStage (s : Session) (e : EditOutcome) (sanitized full : PyString) :
    Session × List Event :=
  match s.last_message_id with
  | some _ =>
    match e with
    | .ok => ({ s with last_message_text := full },
        [Event.editMessage (codeTag sanitized)])
    | .notModified => (s, [Event.editMessage (codeTag sanitized)])
    | .badRequestOther => ({ s with last_message_id := none },
        [Event.editMessage (codeTag sanitized)])
  | none => (s, [])

/-- Embedding of one loop iteration of `periodic_flusher` (bot.py lines
41-76) for a session that still exists: when the stripped joined buffer is
non-empty and differs from the last published text, edit the stored message
(`periodicEditStage`) and, if afterwards no message id is stored, send a
fresh message and record its id and the new text.  The output buffer is
never touched. -/
def periodic_flusher_step (s : Session) (e : EditOutcome) (newMsgId : Nat) :
    Session × List Event :=
  let full := pyStrip s.output_buffer.flatten
  if full ≠ [] ∧ full ≠ s.last_message_text then
    let sanitized := htmlEscape full
    if sanitized = [] then (s, [])
    else
      let step := periodicEditStage s e sanitized full
      match step.1.last_message_id with
      | none =>
        ({ step.1 with last_message_id := some newMsgId, last_message_text := full },
          step.2 ++ [Event.replyText (codeTag sanitized)])
      | some _ => step
  else (s, [])

/-- Iterated periodic flushes with the respective edit outcomes and fresh
message ids supplied by the environment. -/
def flushMany (s : Session) (l : List (EditOutcome × Nat)) : Session :=
  l.foldl (fun acc p => (periodic_flusher_step acc p.1 p.2).1) s

/-! ## Session manager handlers -/

/-- The marker-wrapped form of a directory-change command
(bot.py line 353). -/
def cdWrapped (command : PyString) : PyString :=
  command ++
    " && echo ---CWD_MARKER--- && pwd && echo ---CWD_MARKER--- && echo ---EOC_MARKER---\n".data

/-- The marker-wrapped form of an ordinary command (bot.py line 355). -/
def plainWrapped (command : PyString) : PyString :=
  command ++ " ; echo ---EOC_MARKER---\n".data

/-- Embedding of `text_message_handler` (bot.py lines 337-357).  Returns
the session table entry for the user, the replies produced, and the bytes
written to the subprocess input stream (as a decoded string), if any. -/
def text_message_handler (allowed : List Nat) (uid : Nat) (s? : Option Session)
    (text : PyString) : Option Session × List Event × Option PyString :=
  if is_authorized allowed uid = false then (s?, [], none)
  else
    match s? with
    | none => (none, [Event.replyText noActiveShellMsg], none)
    | some s =>
      if s.lock then (some s, [Event.replyText busyMessage], none)
      else
        (some { s with lock := true }, [],
          some (if "cd ".data.isPrefixOf (pyStrip text) then cdWrapped text
                else plainWrapped text))

/-- Embedding of `control_c_command` (bot.py lines 306-321).  The body runs
under a `try`: when `os.killpg` succeeds the confirmation is sent, the lock
is released if held and the prompt is republished; a `ProcessLookupError`
(raised by `os.getpgid`/`os.killpg` before any of that) only produces the
"already ended" reply, leaving the session untouched; any other exception
only produces the failure reply. -/
def control_c_command (allowed : List Nat) (uid : Nat) (s? : Option Session)
    (k : KillOutcome) : Option Session × List Event :=
  if is_authorized allowed uid = false ∨ s? = none then
    (s?, [Event.replyText noSessionMsg])
  else
    match s? with
    | none => (none, [])
    | some s =>
      match k with
      | .ok =>
        (some { s with lock := false },
          [Event.replyText interruptSentMsg, Event.replyText (promptText s.cwd)])
      | .processLookup => (some s, [Event.replyText processGoneMsg])
      | .otherError msg =>
        (some s, [Event.replyText ("Failed to send signal: ".data ++ msg)])

/-- Models the POSIX shell evaluation of the five-command chain written by
`text_message_handler` for a directory-change command
(`cd ... && echo ---CWD_MARKER--- && pwd && echo ---CWD_MARKER--- && echo ---EOC_MARKER---`):
`&&` short-circuits, so when the leading `cd` exits non-zero only the cd's
own diagnostic output appears, and none of the marker echoes run; when it
succeeds the two marker lines bracket the `pwd` output and the end-of-command
marker line follows. -/
def cdChainShellOutput (cdFails : Bool) (cdOutput cwdPath : PyString) : PyString :=
  if cdFails then cdOutput
  else
    cdOutput ++ CWD_MARKER ++ ['\n'] ++ cwdPath ++ ['\n'] ++ CWD_MARKER ++ ['\n'] ++
      EOC_MARKER ++ ['\n']

/-! ## Lemmas about the string primitives -/

theorem isPrefixOf_append_self (l t : List Char) : l.isPrefixOf (l ++ t) = true :=
  List.isPrefixOf_iff_prefix.mpr (List.prefix_append l t)

theorem containsSub_cons (pat : PyString) (c : Char) (cs : PyString) :
    containsSub pat (c :: cs) = (pat.isPrefixOf (c :: cs) || containsSub pat cs) := rfl

theorem splitOnAux_nil (pat : PyString) (k : Nat) : splitOnAux pat [] k = [[]] := rfl

theorem splitOnAux_succ (pat : PyString) (c : Char) (cs : PyString) (k : Nat) :
    splitOnAux pat (c :: cs) (k + 1) = splitOnAux pat cs k := rfl

theorem splitOnAux_zero (pat : PyString) (c : Char) (cs : PyString) :
    splitOnAux pat (c :: cs) 0 =
      if pat.isPrefixOf (c :: cs) = true ∧ pat ≠ [] then
        [] :: splitOnAux pat cs (pat.length - 1)
      else
        match splitOnAux pat cs 0 with
        | [] => [[c]]
        | h :: t => (c :: h) :: t := rfl

theorem prefix_containsSub {pat s : PyString} (h : pat <+: s) :
    containsSub pat s = true := by
  cases s with
  | nil =>
    have hp : pat = [] := List.prefix_nil.mp h
    subst hp; rfl
  | cons c cs =>
    have hp : pat.isPrefixOf (c :: cs) = true := List.isPrefixOf_iff_prefix.mpr h
    rw [containsSub_cons]
    simp [hp]

theorem containsSub_append_pat (pat a b : PyString) :
    containsSub pat (a ++ (pat ++ b)) = true := by
  induction a with
  | nil => exact prefix_containsSub (List.prefix_append pat b)
  | cons c a2 ih =>
    rw [List.cons_append, containsSub_cons]
    simp [ih]

theorem containsSub_cons_false {pat : PyString} {c : Char} {cs : PyString}
    (h : containsSub pat (c :: cs) = false) :
    pat.isPrefixOf (c :: cs) = false ∧ containsSub pat cs = false := by
  rw [containsSub_cons] at h
  simpa using h

theorem prefix_append_left {x l r : List Char} (h : l <+: r) : x ++ l <+: x ++ r := by
  obtain ⟨t, ht⟩ := h
  exact ⟨t, by rw [List.append_assoc, ht]⟩

theorem splitOnAux_skip (pat l b : PyString) :
    splitOnAux pat (l ++ b) l.length = splitOnAux pat b 0 := by
  induction l with
  | nil => rfl
  | cons c l2 ih =>
    rw [List.cons_append, List.length_cons, splitOnAux_succ]
    exact ih

theorem splitOnAux_of_not_contains {pat s : PyString}
    (h : containsSub pat s = false) : splitOnAux pat s 0 = [s] := by
  induction s with
  | nil => rfl
  | cons c cs ih =>
    obtain ⟨hpre, hrest⟩ := containsSub_cons_false h
    rw [splitOnAux_zero, if_neg (by simp [hpre]), ih hrest]

theorem splitOnAux_append {pat : PyString} (a b : PyString) (hp : pat ≠ [])
    (hA : containsSub pat (a ++ pat.dropLast) = false) :
    splitOnAux pat (a ++ (pat ++ b)) 0 = a :: splitOnAux pat b 0 := by
  induction a with
  | nil =>
    cases pat with
    | nil => exact absurd rfl hp
    | cons p ps =>
      rw [List.nil_append, List.cons_append, splitOnAux_zero]
      rw [if_pos ⟨by rw [← List.cons_append]; exact isPrefixOf_append_self (p :: ps) b, hp⟩]
      rw [show (p :: ps).length - 1 = ps.length from by simp]
      rw [splitOnAux_skip]
  | cons c a2 ih =>
    rw [List.cons_append] at hA ⊢
    obtain ⟨hpre, hA2⟩ := containsSub_cons_false hA
    have hguard : pat.isPrefixOf (c :: (a2 ++ (pat ++ b))) = false := by
      by_contra hcon
      have htrue : pat <+: (c :: a2) ++ (pat ++ b) := by
        rw [List.cons_append]
        exact List.isPrefixOf_iff_prefix.mp (by simpa using hcon)
      have hmid : (c :: a2) ++ pat.dropLast <+: (c :: a2) ++ (pat ++ b) :=
        prefix_append_left ((List.dropLast_prefix pat).trans (List.prefix_append pat b))
      have hlen : pat.length ≤ ((c :: a2) ++ pat.dropLast).length := by
        have h1 : 0 < pat.length := List.length_pos.mpr hp
        simp only [List.length_append, List.length_cons, List.length_dropLast]
        omega
      have hfin : pat <+: (c :: a2) ++ pat.dropLast :=
        List.prefix_of_prefix_length_le htrue hmid hlen
      have := prefix_containsSub hfin
      rw [List.cons_append] at this
      rw [this] at hA
      exact Bool.true_eq_false.mp hA
    rw [splitOnAux_zero, if_neg (by simp [hguard]), ih hA2]

theorem pySplit_pair {pat : PyString} (pre mid post : PyString) (hp : pat ≠ [])
    (h2 : containsSub pat (pre ++ pat.dropLast) = false)
    (h3 : containsSub pat (mid ++ pat.dropLast) = false)
    (h4 : containsSub pat post = false) :
    pySplit pat (pre ++ (pat ++ (mid ++ (pat ++ post)))) = [pre, mid, post] := by
  unfold pySplit
  rw [splitOnAux_append pre (mid ++ (pat ++ post)) hp h2]
  rw [splitOnAux_append mid post hp h3]
  rw [splitOnAux_of_not_contains h4]

theorem partitionBefore_append {pat : PyString} (pre post : PyString) (hp : pat ≠ [])
    (h2 : containsSub pat (pre ++ pat.dropLast) = false) :
    partitionBefore pat (pre ++ (pat ++ post)) = pre := by
  unfold partitionBefore pySplit
  rw [splitOnAux_append pre post hp h2]
  rfl

theorem flatten_condSnoc (l : List PyString) (x : PyString) :
    (if x ≠ [] then l ++ [x] else l).flatten = l.flatten ++ x := by
  split
  · simp
  · rename_i hx
    simp at hx
    simp [hx]

theorem pyReplace_ne_nil {pat rep s : PyString} (hr : rep ≠ []) (hs : s ≠ []) :
    pyReplace pat rep s ≠ [] := by
  cases s with
  | nil => exact absurd rfl hs
  | cons c cs =>
    unfold pyReplace replaceAux
    split
    · simp [hr]
    · simp

theorem htmlEscape_ne_nil {s : PyString} (hs : s ≠ []) : htmlEscape s ≠ [] := by
  unfold htmlEscape
  apply pyReplace_ne_nil (by decide)
  apply pyReplace_ne_nil (by decide)
  apply pyReplace_ne_nil (by decide)
  apply pyReplace_ne_nil (by decide)
  exact pyReplace_ne_nil (by decide) hs

theorem EOC_MARKER_ne_nil : EOC_MARKER ≠ [] := by decide

theorem CWD_MARKER_ne_nil : CWD_MARKER ≠ [] := by decide

/-! ## Characterization lemmas for the embedded handlers -/

theorem finalFlushEvents_mem_text {lastId : Option Nat} {lastText sanitized : PyString}
    {e : EditOutcome} {ev : Event} (h : ev ∈ finalFlushEvents lastId lastText sanitized e) :
    eventText ev = codeTag sanitized := by
  cases lastId with
  | none =>
    simp only [finalFlushEvents] at h
    split at h
    · simp at h; subst h; rfl
    · simp at h
  | some m =>
    simp only [finalFlushEvents] at h
    split at h
    · split at h
      · simp at h; rcases h with h | h <;> (subst h; rfl)
      · simp at h; subst h; rfl
    · simp at h

theorem finalFlushEvents_ne_nil {lastId : Option Nat} {lastText sanitized : PyString}
    {e : EditOutcome} (hsan : sanitized ≠ [])
    (hdiff : lastId = none ∨ sanitized ≠ lastText) :
    finalFlushEvents lastId lastText sanitized e ≠ [] := by
  unfold finalFlushEvents
  cases lastId with
  | none => rw [if_pos hsan]; simp
  | some m =>
    have hd : sanitized ≠ lastText := by
      rcases hdiff with h | h
      · exact absurd h (by simp)
      · exact h
    rw [if_pos ⟨hsan, hd⟩]
    cases e <;> simp

theorem read_stream_step_eoc (s : Session) (pre post : PyString) (e : EditOutcome)
    (ha : containsSub EOC_MARKER (pre ++ EOC_MARKER.dropLast) = false) :
    read_stream_step s (pre ++ (EOC_MARKER ++ post)) e =
      ({ s with output_buffer := [], last_message_id := none,
                last_message_text := [], lock := false },
        finalFlushEvents s.last_message_id s.last_message_text
            (htmlEscape (pyReplace CWD_MARKER []
              (pyStrip (s.output_buffer.flatten ++ pre)))) e ++
          [Event.replyText (promptText s.cwd)]) := by
  have hc : containsSub EOC_MARKER (pre ++ (EOC_MARKER ++ post)) = true :=
    containsSub_append_pat EOC_MARKER pre post
  simp only [read_stream_step, hc, if_true]
  rw [partitionBefore_append pre post EOC_MARKER_ne_nil ha]
  rw [flatten_condSnoc]

theorem read_stream_step_plain (s : Session) (c : PyString) (e : EditOutcome)
    (h1 : containsSub EOC_MARKER c = false) (h2 : containsSub CWD_MARKER c = false) :
    read_stream_step s c e =
      (if c ≠ [] then { s with output_buffer := s.output_buffer ++ [c] } else s, []) := by
  simp only [read_stream_step, h1, h2, Bool.false_eq_true, if_false]
  split <;> rfl

theorem read_stream_step_cwd_pair (s : Session) (pre mid post : PyString) (e : EditOutcome)
    (h1 : containsSub EOC_MARKER (pre ++ (CWD_MARKER ++ (mid ++ (CWD_MARKER ++ post)))) = false)
    (h2 : containsSub CWD_MARKER (pre ++ CWD_MARKER.dropLast) = false)
    (h3 : containsSub CWD_MARKER (mid ++ CWD_MARKER.dropLast) = false)
    (h4 : containsSub CWD_MARKER post = false) :
    read_stream_step s (pre ++ (CWD_MARKER ++ (mid ++ (CWD_MARKER ++ post)))) e =
      (let newCwd := firstLineOf (pyStrip mid)
       let s2 : Session := { s with cwd := if newCwd ≠ [] then newCwd else s.cwd }
       if pre ++ post ≠ [] then
         ({ s2 with output_buffer := s.output_buffer ++ [pre ++ post] }, [])
       else (s2, [])) := by
  have hc : containsSub CWD_MARKER (pre ++ (CWD_MARKER ++ (mid ++ (CWD_MARKER ++ post)))) =
      true := containsSub_append_pat CWD_MARKER pre (mid ++ (CWD_MARKER ++ post))
  simp only [read_stream_step, h1, hc, Bool.false_eq_true, if_false, if_true]
  rw [pySplit_pair pre mid post CWD_MARKER_ne_nil h2 h3 h4]
  simp only [List.getD, List.headD, List.length_cons, List.length_nil, List.getElem?_cons_zero,
    List.getElem?_cons_succ, Option.getD_some]
  norm_num

theorem read_stream_step_lock_false (s : Session) (c : PyString) (e : EditOutcome)
    (h : s.lock = false) : (read_stream_step s c e).1.lock = false := by
  simp only [read_stream_step]
  repeat' split
  all_goals simp [h]

theorem read_stream_step_buffer_extend (s : Session) (c : PyString) (e : EditOutcome)
    (h : containsSub EOC_MARKER c = false) :
    ∃ t, (read_stream_step s c e).1.output_buffer = s.output_buffer ++ t ∧
      (read_stream_step s c e).1.lock = s.lock := by
  simp only [read_stream_step, h, Bool.false_eq_true, if_false]
  repeat' split
  all_goals first
    | exact ⟨_, rfl, rfl⟩
    | exact ⟨[], by simp, rfl⟩

theorem periodicEditStage_frame (s : Session) (e : EditOutcome) (san full : PyString) :
    (periodicEditStage s e san full).1.output_buffer = s.output_buffer ∧
      (periodicEditStage s e san full).1.cwd = s.cwd ∧
      (periodicEditStage s e san full).1.lock = s.lock := by
  cases h : s.last_message_id <;> cases e <;> simp [periodicEditStage, h]

theorem periodic_flusher_step_buffer (s : Session) (e : EditOutcome) (n : Nat) :
    (periodic_flusher_step s e n).1.output_buffer = s.output_buffer := by
  simp only [periodic_flusher_step]
  split
  · split
    · rfl
    · split
      · exact (periodicEditStage_frame s e _ _).1
      · exact (periodicEditStage_frame s e _ _).1
  · rfl

theorem flushMany_buffer (l : List (EditOutcome × Nat)) (s : Session) :
    (flushMany s l).output_buffer = s.output_buffer := by
  induction l generalizing s with
  | nil => rfl
  | cons p l ih =>
    rw [show flushMany s (p :: l) = flushMany (periodic_flusher_step s p.1 p.2).1 l from rfl]
    rw [ih]
    exact periodic_flusher_step_buffer s p.1 p.2

theorem periodic_flusher_step_silent (s : Session) (e : EditOutcome) (n : Nat)
    (h : ¬(pyStrip s.output_buffer.flatten ≠ [] ∧
        pyStrip s.output_buffer.flatten ≠ s.last_message_text)) :
    periodic_flusher_step s e n = (s, []) := by
  simp only [periodic_flusher_step]
  rw [if_neg h]

theorem periodic_flusher_step_id_isSome (s : Session) (e : EditOutcome) (n m : Nat)
    (hid : s.last_message_id = some m) :
    (periodic_flusher_step s e n).1.last_message_id ≠ none := by
  simp only [periodic_flusher_step]
  split
  · split
    · simp [hid]
    · split
      · simp
      · rename_i heq
        rw [heq]
        simp
  · simp [hid]

/-! ## Claims -/

/-- C2: while a session's `command_lock` is busy, dispatching a plain-text
command writes nothing to the subprocess input stream, produces exactly the
single "busy" reply, and leaves the session unchanged. -/
theorem c2_busy_dispatch_one_reply_no_write (allowed : List Nat) (uid : Nat)
    (s : Session) (text : PyString)
    (hauth : is_authorized allowed uid = true) (hbusy : s.lock = true) :
    text_message_handler allowed uid (some s) text =
      (some s, [Event.replyText busyMessage], none) := by
  simp [text_message_handler, hauth, hbusy]

/-- Witness for C2 at a concrete busy session. -/
theorem c2_busy_dispatch_one_reply_no_write_witness :
    (is_authorized [7] 7 = true ∧ (⟨"/h".data, true, [], none, []⟩ : Session).lock = true) ∧
      text_message_handler [7] 7 (some ⟨"/h".data, true, [], none, []⟩) "ls".data =
        (some ⟨"/h".data, true, [], none, []⟩, [Event.replyText busyMessage], none) :=
  ⟨⟨by decide, by decide⟩,
    c2_busy_dispatch_one_reply_no_write [7] 7 ⟨"/h".data, true, [], none, []⟩ "ls".data
      (by decide) (by decide)⟩

/-- C9 counterexample: an unauthorized plain-text command dispatch produces
zero user-visible messages, not exactly one — `text_message_handler`
returns silently when `is_authorized` fails. -/
theorem c9_unauthorized_silent_cex :
    is_authorized [1] 2 = false ∧
      (text_message_handler [1] 2 (some ⟨"/h".data, false, [], none, []⟩) "ls".data).2.1 = [] ∧
      (text_message_handler [1] 2 (some ⟨"/h".data, false, [], none, []⟩) "ls".data).2.1.length ≠ 1 := by
  decide

/-- C9 amended: an unauthorized plain-text command dispatch is ignored with
no user-visible message at all: no reply, no session-state change, nothing
written to the subprocess, and the process is not terminated (the handler
returns normally). -/
theorem c9_unauthorized_dispatch_ignored_amended (allowed : List Nat) (uid : Nat)
    (s? : Option Session) (text : PyString)
    (h : is_authorized allowed uid = false) :
    text_message_handler allowed uid s? text = (s?, [], none) := by
  simp [text_message_handler, h]

/-- Witness for the amended C9 at a concrete unauthorized caller. -/
theorem c9_unauthorized_dispatch_ignored_amended_witness :
    is_authorized [1] 2 = false ∧
      text_message_handler [1] 2 (some ⟨"/x".data, false, [], none, []⟩) "pwd".data =
        (some ⟨"/x".data, false, [], none, []⟩, [], none) :=
  ⟨by decide,
    c9_unauthorized_dispatch_ignored_amended [1] 2 (some ⟨"/x".data, false, [], none, []⟩)
      "pwd".data (by decide)⟩

/-- C3 counterexample: when the process id can no longer be resolved
(`ProcessLookupError`), `control_c_command` reports "already ended" but the
`command_lock` is NOT returned to idle — the release on line 316 is skipped
because the exception is raised at the `os.killpg` call before it. -/
theorem c3_process_gone_lock_stays_busy_cex :
    control_c_command [7] 7 (some ⟨"/h".data, true, [], none, []⟩) KillOutcome.processLookup =
        (some ⟨"/h".data, true, [], none, []⟩, [Event.replyText processGoneMsg]) ∧
      (control_c_command [7] 7 (some ⟨"/h".data, true, [], none, []⟩)
          KillOutcome.processLookup).1.map Session.lock = some true := by
  decide

/-- C3 amended: for a busy session, the interrupt returns `command_lock` to
idle whenever the interrupt signal is actually delivered — and the lock then
stays idle no matter what the running command later writes, marker or not —
but when the process id can no longer be resolved the handler only sends the
distinguishable "already ended" reply and leaves the session (lock still
busy) unchanged. -/
theorem c3_interrupt_releases_lock_amended (allowed : List Nat) (uid : Nat) (s : Session)
    (hauth : is_authorized allowed uid = true) (hbusy : s.lock = true) :
    control_c_command allowed uid (some s) KillOutcome.ok =
        (some { s with lock := false },
          [Event.replyText interruptSentMsg, Event.replyText (promptText s.cwd)]) ∧
      (∀ c e, (read_stream_step { s with lock := false } c e).1.lock = false) ∧
      control_c_command allowed uid (some s) KillOutcome.processLookup =
        (some s, [Event.replyText processGoneMsg]) := by
  refine ⟨?_, ?_, ?_⟩
  · simp [control_c_command, hauth]
  · intro c e
    exact read_stream_step_lock_false _ c e rfl
  · simp [control_c_command, hauth]

/-- Witness for the amended C3 at a concrete busy session. -/
theorem c3_interrupt_releases_lock_amended_witness :
    (is_authorized [7] 7 = true ∧ (⟨"/h".data, true, [], none, []⟩ : Session).lock = true) ∧
      (control_c_command [7] 7 (some ⟨"/h".data, true, [], none, []⟩) KillOutcome.ok =
          (some { (⟨"/h".data, true, [], none, []⟩ : Session) with lock := false },
            [Event.replyText interruptSentMsg,
              Event.replyText (promptText (⟨"/h".data, true, [], none, []⟩ : Session).cwd)]) ∧
        (∀ c e,
          (read_stream_step
              { (⟨"/h".data, true, [], none, []⟩ : Session) with lock := false } c e).1.lock =
            false) ∧
        control_c_command [7] 7 (some ⟨"/h".data, true, [], none, []⟩)
            KillOutcome.processLookup =
          (some ⟨"/h".data, true, [], none, []⟩, [Event.replyText processGoneMsg])) :=
  ⟨⟨by decide, by decide⟩,
    c3_interrupt_releases_lock_amended [7] 7 ⟨"/h".data, true, [], none, []⟩
      (by decide) (by decide)⟩

/-- C5: a periodic (non-final) flush leaves the output buffer untouched,
it emits an outbound call only when the stringified, trimmed buffer is
non-empty and differs from the last published text, and consequently any
number of consecutive periodic flushes leaves the accumulated fragments
unchanged. -/
theorem c5_periodic_flush_preserves_buffer (s : Session) (e : EditOutcome) (n : Nat) :
    (periodic_flusher_step s e n).1.output_buffer = s.output_buffer ∧
      ((periodic_flusher_step s e n).2 ≠ [] →
        pyStrip s.output_buffer.flatten ≠ [] ∧
          pyStrip s.output_buffer.flatten ≠ s.last_message_text) ∧
      (∀ l, (flushMany s l).output_buffer = s.output_buffer) := by
  refine ⟨periodic_flusher_step_buffer s e n, ?_, fun l => flushMany_buffer l s⟩
  intro hne
  by_cases hcond : pyStrip s.output_buffer.flatten ≠ [] ∧
      pyStrip s.output_buffer.flatten ≠ s.last_message_text
  · exact hcond
  · have hs : periodic_flusher_step s e n = (s, []) :=
      periodic_flusher_step_silent s e n hcond
    rw [hs] at hne
    exact absurd rfl hne

/-- Witness for C5 at a concrete session. -/
theorem c5_periodic_flush_preserves_buffer_witness :
    (periodic_flusher_step ⟨"/h".data, false, ["hi".data], none, []⟩ EditOutcome.ok 9).1.output_buffer =
        (⟨"/h".data, false, ["hi".data], none, []⟩ : Session).output_buffer ∧
      ((periodic_flusher_step ⟨"/h".data, false, ["hi".data], none, []⟩ EditOutcome.ok 9).2 ≠ [] →
        pyStrip (⟨"/h".data, false, ["hi".data], none, []⟩ : Session).output_buffer.flatten ≠ [] ∧
          pyStrip (⟨"/h".data, false, ["hi".data], none, []⟩ : Session).output_buffer.flatten ≠
            (⟨"/h".data, false, ["hi".data], none, []⟩ : Session).last_message_text) ∧
      (∀ l, (flushMany ⟨"/h".data, false, ["hi".data], none, []⟩ l).output_buffer =
        (⟨"/h".data, false, ["hi".data], none, []⟩ : Session).output_buffer) :=
  c5_periodic_flush_preserves_buffer ⟨"/h".data, false, ["hi".data], none, []⟩ EditOutcome.ok 9

/-- C6: in a periodic flush with a stored message id and changed non-empty
output, an edit failing with the "content unchanged" signal is treated as
success — the session (including `last_message_id` and `last_message_text`)
is unchanged and no new message is sent; an edit failing with any other
signal invalidates the stored id, so this same flush sends a fresh message
and records its identifier and text. -/
theorem c6_edit_failure_handling (s : Session) (n m : Nat)
    (hid : s.last_message_id = some m)
    (h1 : pyStrip s.output_buffer.flatten ≠ [])
    (h2 : pyStrip s.output_buffer.flatten ≠ s.last_message_text) :
    periodic_flusher_step s EditOutcome.notModified n =
        (s, [Event.editMessage (codeTag (htmlEscape (pyStrip s.output_buffer.flatten)))]) ∧
      periodic_flusher_step s EditOutcome.badRequestOther n =
        ({ s with last_message_id := some n,
                  last_message_text := pyStrip s.output_buffer.flatten },
          [Event.editMessage (codeTag (htmlEscape (pyStrip s.output_buffer.flatten))),
            Event.replyText (codeTag (htmlEscape (pyStrip s.output_buffer.flatten)))]) := by
  have hsan : htmlEscape (pyStrip s.output_buffer.flatten) ≠ [] := htmlEscape_ne_nil h1
  constructor
  · simp only [periodic_flusher_step]
    rw [if_pos ⟨h1, h2⟩, if_neg hsan]
    simp [periodicEditStage, hid]
  · simp only [periodic_flusher_step]
    rw [if_pos ⟨h1, h2⟩, if_neg hsan]
    simp [periodicEditStage, hid]

/-- Witness for C6 at a concrete session with a stored message id. -/
theorem c6_edit_failure_handling_witness :
    ((⟨"/h".data, false, ["abc".data], some 5, "old".data⟩ : Session).last_message_id = some 5 ∧
        pyStrip (⟨"/h".data, false, ["abc".data], some 5, "old".data⟩ : Session).output_buffer.flatten ≠ [] ∧
        pyStrip (⟨"/h".data, false, ["abc".data], some 5, "old".data⟩ : Session).output_buffer.flatten ≠
          (⟨"/h".data, false, ["abc".data], some 5, "old".data⟩ : Session).last_message_text) ∧
      (periodic_flusher_step ⟨"/h".data, false, ["abc".data], some 5, "old".data⟩
            EditOutcome.notModified 42 =
          (⟨"/h".data, false, ["abc".data], some 5, "old".data⟩,
            [Event.editMessage (codeTag (htmlEscape
              (pyStrip (⟨"/h".data, false, ["abc".data], some 5, "old".data⟩ : Session).output_buffer.flatten)))]) ∧
        periodic_flusher_step ⟨"/h".data, false, ["abc".data], some 5, "old".data⟩
            EditOutcome.badRequestOther 42 =
          ({ (⟨"/h".data, false, ["abc".data], some 5, "old".data⟩ : Session) with
                last_message_id := some 42,
                last_message_text :=
                  pyStrip (⟨"/h".data, false, ["abc".data], some 5, "old".data⟩ : Session).output_buffer.flatten },
            [Event.editMessage (codeTag (htmlEscape
                (pyStrip (⟨"/h".data, false, ["abc".data], some 5, "old".data⟩ : Session).output_buffer.flatten))),
              Event.replyText (codeTag (htmlEscape
                (pyStrip (⟨"/h".data, false, ["abc".data], some 5, "old".data⟩ : Session).output_buffer.flatten)))])) :=
  ⟨⟨by decide, by decide, by decide⟩,
    c6_edit_failure_handling ⟨"/h".data, false, ["abc".data], some 5, "old".data⟩ 42 5
      (by decide) (by decide) (by decide)⟩

/-- C1: when the end-of-command marker is observed, the final flush
publishes exactly the trimmed concatenation of all fragments appended since
the previous final flush, including the text preceding the marker in the
same chunk (rendered markup-safe: CWD-marker text removed and HTML-escaped,
inside the `code` tag, exactly as every publication is) — every outbound
call of that flush other than the prompt carries precisely that text, and
one such call is made whenever the text is non-empty and not already
displayed.  Moreover only this final flush clears the output buffer and
resets the publication state to none: it does (buffer `[]`, id `none`, text
empty), while a marker-free chunk only extends the buffer and a periodic
flush preserves the buffer and never resets a stored message id to none. -/
theorem c1_final_flush_trimmed_concat (s : Session) (pre post : PyString) (e : EditOutcome)
    (ha : containsSub EOC_MARKER (pre ++ EOC_MARKER.dropLast) = false) :
    ((read_stream_step s (pre ++ (EOC_MARKER ++ post)) e).1.output_buffer = [] ∧
        (read_stream_step s (pre ++ (EOC_MARKER ++ post)) e).1.last_message_id = none ∧
        (read_stream_step s (pre ++ (EOC_MARKER ++ post)) e).1.last_message_text = []) ∧
      (∀ ev ∈ (read_stream_step s (pre ++ (EOC_MARKER ++ post)) e).2,
        eventText ev =
            codeTag (htmlEscape (pyReplace CWD_MARKER []
              (pyStrip (s.output_buffer.flatten ++ pre)))) ∨
          ev = Event.replyText (promptText s.cwd)) ∧
      (htmlEscape (pyReplace CWD_MARKER [] (pyStrip (s.output_buffer.flatten ++ pre))) ≠ [] →
        (s.last_message_id = none ∨
          htmlEscape (pyReplace CWD_MARKER [] (pyStrip (s.output_buffer.flatten ++ pre))) ≠
            s.last_message_text) →
        ∃ ev ∈ (read_stream_step s (pre ++ (EOC_MARKER ++ post)) e).2,
          eventText ev =
            codeTag (htmlEscape (pyReplace CWD_MARKER []
              (pyStrip (s.output_buffer.flatten ++ pre))))) ∧
      (∀ c e2, containsSub EOC_MARKER c = false →
        ∃ t, (read_stream_step s c e2).1.output_buffer = s.output_buffer ++ t) ∧
      (∀ e2 n, (periodic_flusher_step s e2 n).1.output_buffer = s.output_buffer ∧
        ((periodic_flusher_step s e2 n).1.last_message_id = none →
          s.last_message_id = none)) := by
  rw [read_stream_step_eoc s pre post e ha]
  refine ⟨⟨rfl, rfl, rfl⟩, ?_, ?_, ?_, ?_⟩
  · intro ev hev
    rw [List.mem_append] at hev
    rcases hev with hev | hev
    · exact Or.inl (finalFlushEvents_mem_text hev)
    · rw [List.mem_singleton] at hev
      exact Or.inr hev
  · intro hsan hdiff
    have hne := finalFlushEvents_ne_nil (e := e) hsan hdiff
    obtain ⟨ev, hev⟩ := List.exists_mem_of_ne_nil _ hne
    exact ⟨ev, List.mem_append_left _ hev, finalFlushEvents_mem_text hev⟩
  · intro c e2 hc
    obtain ⟨t, ht, _⟩ := read_stream_step_buffer_extend s c e2 hc
    exact ⟨t, ht⟩
  · intro e2 n
    refine ⟨periodic_flusher_step_buffer s e2 n, ?_⟩
    intro hnone
    by_cases hid : s.last_message_id = none
    · exact hid
    · obtain ⟨m, hm⟩ := Option.ne_none_iff_exists'.mp hid
      exact absurd hnone (periodic_flusher_step_id_isSome s e2 n m hm)

/-- Witness for C1 at a concrete session and chunk. -/
theorem c1_final_flush_trimmed_concat_witness :
    containsSub EOC_MARKER ("world".data ++ EOC_MARKER.dropLast) = false ∧
      (((read_stream_step ⟨"/h".data, true, ["hello ".data], some 5, "old".data⟩
              ("world".data ++ (EOC_MARKER ++ "\n".data)) EditOutcome.ok).1.output_buffer = [] ∧
          (read_stream_step ⟨"/h".data, true, ["hello ".data], some 5, "old".data⟩
              ("world".data ++ (EOC_MARKER ++ "\n".data)) EditOutcome.ok).1.last_message_id = none ∧
          (read_stream_step ⟨"/h".data, true, ["hello ".data], some 5, "old".data⟩
              ("world".data ++ (EOC_MARKER ++ "\n".data)) EditOutcome.ok).1.last_message_text = []) ∧
        (∀ ev ∈ (read_stream_step ⟨"/h".data, true, ["hello ".data], some 5, "old".data⟩
            ("world".data ++ (EOC_MARKER ++ "\n".data)) EditOutcome.ok).2,
          eventText ev =
              codeTag (htmlEscape (pyReplace CWD_MARKER []
                (pyStrip ((⟨"/h".data, true, ["hello ".data], some 5, "old".data⟩ : Session).output_buffer.flatten ++
                  "world".data)))) ∨
            ev = Event.replyText (promptText
              (⟨"/h".data, true, ["hello ".data], some 5, "old".data⟩ : Session).cwd)) ∧
        (htmlEscape (pyReplace CWD_MARKER []
              (pyStrip ((⟨"/h".data, true, ["hello ".data], some 5, "old".data⟩ : Session).output_buffer.flatten ++
                "world".data))) ≠ [] →
          ((⟨"/h".data, true, ["hello ".data], some 5, "old".data⟩ : Session).last_message_id = none ∨
            htmlEscape (pyReplace CWD_MARKER []
                (pyStrip ((⟨"/h".data, true, ["hello ".data], some 5, "old".data⟩ : Session).output_buffer.flatten ++
                  "world".data))) ≠
              (⟨"/h".data, true, ["hello ".data], some 5, "old".data⟩ : Session).last_message_text) →
          ∃ ev ∈ (read_stream_step ⟨"/h".data, true, ["hello ".data], some 5, "old".data⟩
              ("world".data ++ (EOC_MARKER ++ "\n".data)) EditOutcome.ok).2,
            eventText ev =
              codeTag (htmlEscape (pyReplace CWD_MARKER []
                (pyStrip ((⟨"/h".data, true, ["hello ".data], some 5, "old".data⟩ : Session).output_buffer.flatten ++
                  "world".data))))) ∧
        (∀ c e2, containsSub EOC_MARKER c = false →
          ∃ t, (read_stream_step ⟨"/h".data, true, ["hello ".data], some 5, "old".data⟩ c e2).1.output_buffer =
            (⟨"/h".data, true, ["hello ".data], some 5, "old".data⟩ : Session).output_buffer ++ t) ∧
        (∀ e2 n,
          (periodic_flusher_step ⟨"/h".data, true, ["hello ".data], some 5, "old".data⟩ e2 n).1.output_buffer =
              (⟨"/h".data, true, ["hello ".data], some 5, "old".data⟩ : Session).output_buffer ∧
            ((periodic_flusher_step ⟨"/h".data, true, ["hello ".data], some 5, "old".data⟩ e2 n).1.last_message_id =
                none →
              (⟨"/h".data, true, ["hello ".data], some 5, "old".data⟩ : Session).last_message_id = none))) :=
  ⟨by decide,
    c1_final_flush_trimmed_concat ⟨"/h".data, true, ["hello ".data], some 5, "old".data⟩
      "world".data "\n".data EditOutcome.ok (by decide)⟩

/-- C4 counterexample: when the CWD marker pair arrives in the same read
chunk as the end-of-command marker — exactly what a dispatched
`cd`-wrapper produces in one chunk — the end-of-command branch runs and
`working_directory` is NOT updated to the path between the markers. -/
theorem c4_cwd_same_chunk_as_eoc_cex :
    containsSub CWD_MARKER
        "---CWD_MARKER---\n/tmp\n---CWD_MARKER---\n---EOC_MARKER---\n".data = true ∧
      containsSub EOC_MARKER
        "---CWD_MARKER---\n/tmp\n---CWD_MARKER---\n---EOC_MARKER---\n".data = true ∧
      (read_stream_step ⟨"/home/op".data, true, [], none, []⟩
          "---CWD_MARKER---\n/tmp\n---CWD_MARKER---\n---EOC_MARKER---\n".data
          EditOutcome.ok).1.cwd = "/home/op".data ∧
      "/home/op".data ≠ "/tmp".data := by
  decide

/-- C4 amended: when the CWD marker pair arrives in a read chunk that does
NOT contain the end-of-command marker, `working_directory` is updated to
exactly the path printed between the two markers (the first line of the
stripped text between them) when that path is non-empty, and the marker
text is fully stripped from what is buffered for publication (only the text
outside the pair is appended, without producing any outbound call and
without touching the lock or publication state); when the pair shares the
chunk with the end-of-command marker, `working_directory` is not updated. -/
theorem c4_cwd_update_without_eoc_amended (s : Session) (pre mid post : PyString)
    (e : EditOutcome)
    (h1 : containsSub EOC_MARKER (pre ++ (CWD_MARKER ++ (mid ++ (CWD_MARKER ++ post)))) = false)
    (h2 : containsSub CWD_MARKER (pre ++ CWD_MARKER.dropLast) = false)
    (h3 : containsSub CWD_MARKER (mid ++ CWD_MARKER.dropLast) = false)
    (h4 : containsSub CWD_MARKER post = false) :
    (firstLineOf (pyStrip mid) ≠ [] →
        (read_stream_step s (pre ++ (CWD_MARKER ++ (mid ++ (CWD_MARKER ++ post)))) e).1.cwd =
          firstLineOf (pyStrip mid)) ∧
      (firstLineOf (pyStrip mid) = [] →
        (read_stream_step s (pre ++ (CWD_MARKER ++ (mid ++ (CWD_MARKER ++ post)))) e).1.cwd =
          s.cwd) ∧
      (read_stream_step s (pre ++ (CWD_MARKER ++ (mid ++ (CWD_MARKER ++ post)))) e).2 = [] ∧
      (read_stream_step s (pre ++ (CWD_MARKER ++ (mid ++ (CWD_MARKER ++ post)))) e).1.lock =
        s.lock ∧
      (read_stream_step s (pre ++ (CWD_MARKER ++ (mid ++ (CWD_MARKER ++ post)))) e).1.last_message_id =
        s.last_message_id ∧
      (read_stream_step s (pre ++ (CWD_MARKER ++ (mid ++ (CWD_MARKER ++ post)))) e).1.output_buffer =
        (if pre ++ post ≠ [] then s.output_buffer ++ [pre ++ post] else s.output_buffer) := by
  rw [read_stream_step_cwd_pair s pre mid post e h1 h2 h3 h4]
  refine ⟨fun hp => ?_, fun hp => ?_, ?_, ?_, ?_, ?_⟩
  · split <;> simp [hp]
  · split <;> simp [hp]
  · split <;> rfl
  · split <;> rfl
  · split <;> rfl
  · split <;> simp_all

/-- Witness for the amended C4 at a concrete chunk carrying a CWD pair. -/
theorem c4_cwd_update_without_eoc_amended_witness :
    (containsSub EOC_MARKER
          ("a".data ++ (CWD_MARKER ++ ("\n/tmp\n".data ++ (CWD_MARKER ++ "b\n".data)))) = false ∧
        containsSub CWD_MARKER ("a".data ++ CWD_MARKER.dropLast) = false ∧
        containsSub CWD_MARKER ("\n/tmp\n".data ++ CWD_MARKER.dropLast) = false ∧
        containsSub CWD_MARKER "b\n".data = false) ∧
      ((firstLineOf (pyStrip "\n/tmp\n".data) ≠ [] →
          (read_stream_step ⟨"/h".data, true, [], none, []⟩
              ("a".data ++ (CWD_MARKER ++ ("\n/tmp\n".data ++ (CWD_MARKER ++ "b\n".data))))
              EditOutcome.ok).1.cwd = firstLineOf (pyStrip "\n/tmp\n".data)) ∧
        (firstLineOf (pyStrip "\n/tmp\n".data) = [] →
          (read_stream_step ⟨"/h".data, true, [], none, []⟩
              ("a".data ++ (CWD_MARKER ++ ("\n/tmp\n".data ++ (CWD_MARKER ++ "b\n".data))))
              EditOutcome.ok).1.cwd = (⟨"/h".data, true, [], none, []⟩ : Session).cwd) ∧
        (read_stream_step ⟨"/h".data, true, [], none, []⟩
            ("a".data ++ (CWD_MARKER ++ ("\n/tmp\n".data ++ (CWD_MARKER ++ "b\n".data))))
            EditOutcome.ok).2 = [] ∧
        (read_stream_step ⟨"/h".data, true, [], none, []⟩
            ("a".data ++ (CWD_MARKER ++ ("\n/tmp\n".data ++ (CWD_MARKER ++ "b\n".data))))
            EditOutcome.ok).1.lock = (⟨"/h".data, true, [], none, []⟩ : Session).lock ∧
        (read_stream_step ⟨"/h".data, true, [], none, []⟩
            ("a".data ++ (CWD_MARKER ++ ("\n/tmp\n".data ++ (CWD_MARKER ++ "b\n".data))))
            EditOutcome.ok).1.last_message_id =
          (⟨"/h".data, true, [], none, []⟩ : Session).last_message_id ∧
        (read_stream_step ⟨"/h".data, true, [], none, []⟩
            ("a".data ++ (CWD_MARKER ++ ("\n/tmp\n".data ++ (CWD_MARKER ++ "b\n".data))))
            EditOutcome.ok).1.output_buffer =
          (if "a".data ++ "b\n".data ≠ [] then
            (⟨"/h".data, true, [], none, []⟩ : Session).output_buffer ++ ["a".data ++ "b\n".data]
          else (⟨"/h".data, true, [], none, []⟩ : Session).output_buffer)) :=
  ⟨⟨by decide, by decide, by decide, by decide⟩,
    c4_cwd_update_without_eoc_amended ⟨"/h".data, true, [], none, []⟩ "a".data
      "\n/tmp\n".data "b\n".data EditOutcome.ok (by decide) (by decide) (by decide) (by decide)⟩

/-- C8 counterexample: an end-of-command marker split across two
consecutive reads is never detected — although the concatenation of the two
chunks contains the marker, processing them one after the other leaves the
command lock busy, merely buffers the two fragments as ordinary output, and
triggers no final flush. -/
theorem c8_split_marker_undetected_cex :
    containsSub EOC_MARKER ("---EOC_".data ++ "MARKER---\n".data) = true ∧
      (read_stream_step (read_stream_step ⟨"/h".data, true, [], none, []⟩
            "---EOC_".data EditOutcome.ok).1 "MARKER---\n".data EditOutcome.ok).1.lock = true ∧
      (read_stream_step (read_stream_step ⟨"/h".data, true, [], none, []⟩
            "---EOC_".data EditOutcome.ok).1 "MARKER---\n".data EditOutcome.ok).1.output_buffer =
        ["---EOC_".data, "MARKER---\n".data] ∧
      (read_stream_step ⟨"/h".data, true, [], none, []⟩ "---EOC_".data EditOutcome.ok).2 = [] ∧
      (read_stream_step (read_stream_step ⟨"/h".data, true, [], none, []⟩
            "---EOC_".data EditOutcome.ok).1 "MARKER---\n".data EditOutcome.ok).2 = [] := by
  decide

/-- C8 amended: marker detection is strictly per-chunk.  Each chunk that
contains no complete marker — in particular each half of a marker split
across two reads — is appended to the buffer as ordinary output (so the
partial prefix is indeed treated as ordinary output and retained for the
periodic flusher to display), but the halves are never re-scanned together:
no completion is detected, no flush or lock release happens, and the
publication state is untouched. -/
theorem c8_per_chunk_detection_amended (s : Session) (c1 c2 : PyString)
    (e1 e2 : EditOutcome)
    (h1 : containsSub EOC_MARKER c1 = false) (h2 : containsSub CWD_MARKER c1 = false)
    (h3 : containsSub EOC_MARKER c2 = false) (h4 : containsSub CWD_MARKER c2 = false)
    (h5 : c1 ≠ []) (h6 : c2 ≠ []) :
    (read_stream_step (read_stream_step s c1 e1).1 c2 e2).1.lock = s.lock ∧
      (read_stream_step (read_stream_step s c1 e1).1 c2 e2).1.output_buffer =
        s.output_buffer ++ [c1, c2] ∧
      (read_stream_step s c1 e1).2 = [] ∧
      (read_stream_step (read_stream_step s c1 e1).1 c2 e2).2 = [] ∧
      (read_stream_step (read_stream_step s c1 e1).1 c2 e2).1.last_message_id =
        s.last_message_id := by
  have e1h : read_stream_step s c1 e1 = ({ s with output_buffer := s.output_buffer ++ [c1] }, []) := by
    rw [read_stream_step_plain s c1 e1 h1 h2, if_pos h5]
  have e2h : read_stream_step { s with output_buffer := s.output_buffer ++ [c1] } c2 e2 =
      ({ s with output_buffer := (s.output_buffer ++ [c1]) ++ [c2] }, []) := by
    rw [read_stream_step_plain _ c2 e2 h3 h4, if_pos h6]
  rw [e1h]
  dsimp only
  rw [e2h]
  refine ⟨rfl, ?_, rfl, rfl, rfl⟩
  simp

/-- Witness for the amended C8, instantiated at the two halves of a split
end-of-command marker. -/
theorem c8_per_chunk_detection_amended_witness :
    (containsSub EOC_MARKER "---EOC_".data = false ∧
        containsSub CWD_MARKER "---EOC_".data = false ∧
        containsSub EOC_MARKER "MARKER---\n".data = false ∧
        containsSub CWD_MARKER "MARKER---\n".data = false) ∧
      ((read_stream_step (read_stream_step ⟨"/h".data, true, ["x".data], some 3, "t".data⟩
              "---EOC_".data EditOutcome.ok).1 "MARKER---\n".data EditOutcome.ok).1.lock =
          (⟨"/h".data, true, ["x".data], some 3, "t".data⟩ : Session).lock ∧
        (read_stream_step (read_stream_step ⟨"/h".data, true, ["x".data], some 3, "t".data⟩
              "---EOC_".data EditOutcome.ok).1 "MARKER---\n".data EditOutcome.ok).1.output_buffer =
          (⟨"/h".data, true, ["x".data], some 3, "t".data⟩ : Session).output_buffer ++
            ["---EOC_".data, "MARKER---\n".data] ∧
        (read_stream_step ⟨"/h".data, true, ["x".data], some 3, "t".data⟩
            "---EOC_".data EditOutcome.ok).2 = [] ∧
        (read_stream_step (read_stream_step ⟨"/h".data, true, ["x".data], some 3, "t".data⟩
              "---EOC_".data EditOutcome.ok).1 "MARKER---\n".data EditOutcome.ok).2 = [] ∧
        (read_stream_step (read_stream_step ⟨"/h".data, true, ["x".data], some 3, "t".data⟩
              "---EOC_".data EditOutcome.ok).1 "MARKER---\n".data EditOutcome.ok).1.last_message_id =
          (⟨"/h".data, true, ["x".data], some 3, "t".data⟩ : Session).last_message_id) :=
  ⟨⟨by decide, by decide, by decide, by decide⟩,
    c8_per_chunk_detection_amended ⟨"/h".data, true, ["x".data], some 3, "t".data⟩
      "---EOC_".data "MARKER---\n".data EditOutcome.ok EditOutcome.ok
      (by decide) (by decide) (by decide) (by decide) (by decide) (by decide)⟩

/-- C7 counterexample: decoding a chunk with an invalid byte (`0xFF`)
yields no replacement character at all — the byte is silently dropped
(`errors='ignore'`), so the output is strictly shorter, contradicting the
claim that a replacement character appears in the output. -/
theorem c7_replacement_char_cex :
    decodeUtf8Ignore [0x61, 0xFF, 0x62] = ['a', 'b'] ∧
      Char.ofNat 0xFFFD ∉ decodeUtf8Ignore [0x61, 0xFF, 0x62] ∧
      (decodeUtf8Ignore [0x61, 0xFF, 0x62]).length = 2 := by
  decide

/-- C7 amended: decoding never raises (the decoder is a total function) and
an invalid byte sequence is dropped from the output rather than replaced:
an invalid lead byte such as `0xFF` contributes nothing to the decoded
text, while valid (e.g. ASCII) bytes decode to themselves. -/
theorem c7_decode_ignore_amended :
    (∀ rest : List Nat, decodeUtf8Ignore (0xFF :: rest) = decodeUtf8Ignore rest) ∧
      (∀ bs : List Nat, (∀ b ∈ bs, b < 0x80) →
        decodeUtf8Ignore bs = bs.map Char.ofNat) := by
  constructor
  · intro rest
    have hl : leadState 0xFF = ([], none) := rfl
    unfold decodeUtf8Ignore
    rw [show decodeAux none (0xFF :: rest) =
          (leadState 0xFF).1 ++ decodeAux (leadState 0xFF).2 rest from rfl, hl]
    rfl
  · intro bs h
    induction bs with
    | nil => rfl
    | cons b bs ih =>
      have hb : b < 0x80 := h b (List.mem_cons_self b bs)
      have hr : ∀ x ∈ bs, x < 0x80 := fun x hx => h x (List.mem_cons_of_mem b hx)
      have hl : leadState b = ([Char.ofNat b], none) := by
        unfold leadState
        rw [if_pos hb]
      unfold decodeUtf8Ignore at ih ⊢
      rw [show decodeAux none (b :: bs) =
            (leadState b).1 ++ decodeAux (leadState b).2 bs from rfl, hl, List.map_cons]
      rw [ih hr]
      rfl

/-- Witness for the amended C7 on concrete byte lists. -/
theorem c7_decode_ignore_amended_witness :
    decodeUtf8Ignore (0xFF :: [0x68]) = decodeUtf8Ignore [0x68] ∧
      ((∀ b ∈ [0x68, 0x69], b < 0x80) ∧
        decodeUtf8Ignore [0x68, 0x69] = [0x68, 0x69].map Char.ofNat) :=
  ⟨c7_decode_ignore_amended.1 [0x68],
    ⟨by decide, c7_decode_ignore_amended.2 [0x68, 0x69] (by decide)⟩⟩

/-- C10: dispatching a directory-change command writes the `&&`-chained
wrapper; when the underlying `cd` fails, the short-circuiting chain emits
neither the CWD markers nor the end-of-command marker (only the cd's own
diagnostic output), so processing that output leaves `working_directory`
unchanged and the command lock busy — until an explicit interrupt releases
it; likewise, an empty path extracted between two CWD markers leaves
`working_directory` unchanged. -/
theorem c10_failed_cd_keeps_state (allowed : List Nat) (uid : Nat) (s : Session)
    (cmd cdOut path : PyString) (e : EditOutcome)
    (hauth : is_authorized allowed uid = true)
    (hidle : s.lock = false)
    (hcd : "cd ".data.isPrefixOf (pyStrip cmd) = true)
    (h1 : containsSub EOC_MARKER cdOut = false)
    (h2 : containsSub CWD_MARKER cdOut = false) :
    text_message_handler allowed uid (some s) cmd =
        (some { s with lock := true }, [], some (cdWrapped cmd)) ∧
      cdChainShellOutput true cdOut path = cdOut ∧
      containsSub EOC_MARKER (cdChainShellOutput true cdOut path) = false ∧
      containsSub CWD_MARKER (cdChainShellOutput true cdOut path) = false ∧
      (read_stream_step { s with lock := true } (cdChainShellOutput true cdOut path) e).1.cwd =
        s.cwd ∧
      (read_stream_step { s with lock := true } (cdChainShellOutput true cdOut path) e).1.lock =
        true ∧
      (control_c_command allowed uid (some { s with lock := true }) KillOutcome.ok).1 =
        some { s with lock := false } ∧
      (∀ pre mid post,
        containsSub EOC_MARKER (pre ++ (CWD_MARKER ++ (mid ++ (CWD_MARKER ++ post)))) = false →
        containsSub CWD_MARKER (pre ++ CWD_MARKER.dropLast) = false →
        containsSub CWD_MARKER (mid ++ CWD_MARKER.dropLast) = false →
        containsSub CWD_MARKER post = false →
        firstLineOf (pyStrip mid) = [] →
        (read_stream_step s (pre ++ (CWD_MARKER ++ (mid ++ (CWD_MARKER ++ post)))) e).1.cwd =
          s.cwd) := by
  have hout : cdChainShellOutput true cdOut path = cdOut := rfl
  refine ⟨?_, hout, ?_, ?_, ?_, ?_, ?_, ?_⟩
  · simp [text_message_handler, hauth, hidle, hcd]
  · rw [hout]; exact h1
  · rw [hout]; exact h2
  · rw [hout, read_stream_step_plain _ cdOut e h1 h2]
    split <;> rfl
  · rw [hout, read_stream_step_plain _ cdOut e h1 h2]
    split <;> rfl
  · simp [control_c_command, hauth]
  · intro pre mid post g1 g2 g3 g4 g5
    rw [read_stream_step_cwd_pair s pre mid post e g1 g2 g3 g4]
    split <;> simp [g5]

/-- Witness for C10 at a concrete failing `cd` dispatch. -/
theorem c10_failed_cd_keeps_state_witness :
    (is_authorized [7] 7 = true ∧
        (⟨"/home/op".data, false, [], none, []⟩ : Session).lock = false ∧
        "cd ".data.isPrefixOf (pyStrip "cd /nope".data) = true ∧
        containsSub EOC_MARKER "bash: cd: /nope: No such file or directory\n".data = false ∧
        containsSub CWD_MARKER "bash: cd: /nope: No such file or directory\n".data = false) ∧
      (text_message_handler [7] 7 (some ⟨"/home/op".data, false, [], none, []⟩) "cd /nope".data =
          (some { (⟨"/home/op".data, false, [], none, []⟩ : Session) with lock := true }, [],
            some (cdWrapped "cd /nope".data)) ∧
        cdChainShellOutput true "bash: cd: /nope: No such file or directory\n".data "/x".data =
          "bash: cd: /nope: No such file or directory\n".data ∧
        containsSub EOC_MARKER (cdChainShellOutput true
          "bash: cd: /nope: No such file or directory\n".data "/x".data) = false ∧
        containsSub CWD_MARKER (cdChainShellOutput true
          "bash: cd: /nope: No such file or directory\n".data "/x".data) = false ∧
        (read_stream_step { (⟨"/home/op".data, false, [], none, []⟩ : Session) with lock := true }
            (cdChainShellOutput true "bash: cd: /nope: No such file or directory\n".data "/x".data)
            EditOutcome.ok).1.cwd = (⟨"/home/op".data, false, [], none, []⟩ : Session).cwd ∧
        (read_stream_step { (⟨"/home/op".data, false, [], none, []⟩ : Session) with lock := true }
            (cdChainShellOutput true "bash: cd: /nope: No such file or directory\n".data "/x".data)
            EditOutcome.ok).1.lock = true ∧
        (control_c_command [7] 7
            (some { (⟨"/home/op".data, false, [], none, []⟩ : Session) with lock := true })
            KillOutcome.ok).1 =
          some { (⟨"/home/op".data, false, [], none, []⟩ : Session) with lock := false } ∧
        (∀ pre mid post,
          containsSub EOC_MARKER (pre ++ (CWD_MARKER ++ (mid ++ (CWD_MARKER ++ post)))) = false →
          containsSub CWD_MARKER (pre ++ CWD_MARKER.dropLast) = false →
          containsSub CWD_MARKER (mid ++ CWD_MARKER.dropLast) = false →
          containsSub CWD_MARKER post = false →
          firstLineOf (pyStrip mid) = [] →
          (read_stream_step ⟨"/home/op".data, false, [], none, []⟩
              (pre ++ (CWD_MARKER ++ (mid ++ (CWD_MARKER ++ post)))) EditOutcome.ok).1.cwd =
            (⟨"/home/op".data, false, [], none, []⟩ : Session).cwd)) :=
  ⟨⟨by decide, by decide, by decide, by decide, by decide⟩,
    c10_failed_cd_keeps_state [7] 7 ⟨"/home/op".data, false, [], none, []⟩ "cd /nope".data
      "bash: cd: /nope: No such file or directory\n".data "/x".data EditOutcome.ok
      (by decide) (by decide) (by decide) (by decide) (by decide)⟩

end ShellBot
